import Mathlib

/-!
Shallow embedding of the appointment-polling and booking-session core of the
`termin_muenchen_kvr` repository (final generation, under `src/`), together
with theorems settling the frozen claims C1..C10.

Python values are modelled as follows: JSON payloads become the inductive
`Json` (a `None` result from the HTTP gateway becomes `Option.none`);
`datetime` / `time.time()` instants become `Nat`; database tables become
lists of row structures, with each repository method an explicit function
from table state to table state.
-/

namespace TerminMuenchen

/-- Model of a Python JSON value, as returned by `response.json()` in
`munich_api_client.py`.  Python dicts become association lists (Python dict
keys are unique, so first-match lookup agrees with dict lookup). -/
inductive Json where
  | obj (fields : List (String × Json))
  | arr (elems : List Json)
  | str (s : String)
  | num (n : Int)
  | bool (b : Bool)
  | null

/-- Python dict lookup `d.get(key)` on an association list (None if absent). -/
def jlookup (fields : List (String × Json)) (key : String) : Option Json :=
  (fields.find? (fun f => f.1 == key)).map (fun f => f.2)

/-- Python truthiness (`if x:`) of a JSON value: empty dict/list/string,
zero and null/False are falsy, everything else is truthy. -/
def truthy : Json → Bool
  | .obj fields => !fields.isEmpty
  | .arr elems => !elems.isEmpty
  | .str s => !s.isEmpty
  | .num n => n != 0
  | .bool b => b
  | .null => false

/-- Truthiness of an `Option Json` (`if x:` where x may be Python `None`). -/
def otruthy : Option Json → Bool
  | none => false
  | some j => truthy j

/-- Outcome of classifying one available-days response in
`check_and_notify` (src/services/appointment_checker.py lines 229-308). -/
inductive CheckResult where
  | failed
  | found
  | noAvailability
deriving DecidableEq, Repr

/-- Classification of the `get_available_days` result performed by
`check_and_notify` (src/services/appointment_checker.py lines 229-255):
a dict with an `errorCode` key is a failed check; otherwise a non-empty
dict whose `availableDays` value is truthy, or a non-empty list, means
appointments were found; everything else (including a `None` gateway
result, which matches neither `isinstance` branch) falls through to the
"no appointments available" branch. -/
def classify (data : Option Json) : CheckResult :=
  match data with
  | some (.obj fields) =>
    if (jlookup fields "errorCode").isSome then
      .failed
    else if truthy (.obj fields) && decide (fields.length > 0) then
      if truthy ((jlookup fields "availableDays").getD (.arr [])) then
        .found
      else
        .noAvailability
    else
      .noAvailability
  | some (.arr elems) =>
    if decide (elems.length > 0) then .found else .noAvailability
  | _ => .noAvailability

/-- The per-target counters of the global `stats` dict touched by one
classification, plus the loop-local `consecutive_failures` counter. -/
structure CheckCounters where
  successful_checks : Nat
  failed_checks : Nat
  appointments_found_count : Nat
deriving DecidableEq, Repr

/-- Counter updates performed by `check_and_notify` for one classified
target check (src/services/appointment_checker.py lines 232-308).
Returns the updated counters and the updated `consecutive_failures`. -/
def apply_classification (st : CheckCounters) (consecutive_failures : Nat) :
    CheckResult → CheckCounters × Nat
  | .failed =>
    ({ st with failed_checks := st.failed_checks + 1 }, consecutive_failures + 1)
  | .found =>
    ({ st with successful_checks := st.successful_checks + 1,
               appointments_found_count := st.appointments_found_count + 1 }, 0)
  | .noAvailability =>
    ({ st with successful_checks := st.successful_checks + 1 }, 0)

/-- Result of the per-cycle captcha-token gate in `check_and_notify`:
either the cycle is aborted before any target check (refresh needed but
`get_fresh_captcha_token` returned None), or the target loop proceeds
with the given token and expiry. -/
inductive RefreshOutcome where
  | aborted
  | proceed (token : Option String) (expires_at : Nat)
deriving DecidableEq, Repr

/-- Mirrors `if time.time() >= token_expires_at:` in `check_and_notify`
(src/services/appointment_checker.py line 142). -/
def refresh_attempted (now token_expires_at : Nat) : Bool :=
  now ≥ token_expires_at

/-- The token-refresh gate run once per polling cycle before the target
loop (src/services/appointment_checker.py lines 141-187): when the expiry
has passed, a fresh token is requested; on failure the cycle is aborted
(`continue` after incrementing failure counters), on success the target
loop runs with the fresh token and `token_expires_at = time.time() + 280`.
Otherwise the existing token and expiry are kept.  `fresh` is the result
of `get_fresh_captcha_token()`. -/
def refresh_gate (now : Nat) (captcha_token : Option String)
    (token_expires_at : Nat) (fresh : Option String) : RefreshOutcome :=
  if refresh_attempted now token_expires_at then
    match fresh with
    | none => .aborted
    | some t => .proceed (some t) (now + 280)
  else
    .proceed captcha_token token_expires_at

/-- Row of the `booking_sessions` table (src/db_models.py `BookingSession`).
The primary key is `user_id`; `datetime` columns are modelled as `Nat`
instants.  The `created_at`/`updated_at` metadata columns are carried but
not consulted by any claim. -/
structure BookingSessionRow where
  user_id : Nat
  state : String
  service_id : Nat
  office_id : Nat
  date : String
  captcha_token : String
  timestamp : Option Nat := none
  name : Option String := none
  email : Option String := none
  created_at : Nat := 0
  updated_at : Nat := 0
  expires_at : Nat
deriving DecidableEq, Repr

/-- The `booking_sessions` table: a list of rows.  The `user_id` primary
key keeps at most one row per user; theorems that rely on this carry it
as an explicit `countP … ≤ 1` hypothesis. -/
abbrev BookingDB := List BookingSessionRow

/-- Mirrors `BookingSessionRepository.get_session` (src/repositories.py
line 255): `session.get(BookingSession, user_id)` is a primary-key
lookup, with no expiry check and no side effect. -/
def get_session_row (db : BookingDB) (user_id : Nat) : Option BookingSessionRow :=
  db.find? (fun r => r.user_id == user_id)

/-- Mirrors `BookingSessionRepository.delete_session` (src/repositories.py
lines 286-293): look the row up by primary key and delete that row,
returning whether one was deleted. -/
def delete_session (db : BookingDB) (user_id : Nat) : Bool × BookingDB :=
  match get_session_row db user_id with
  | some _ => (true, db.eraseP (fun r => r.user_id == user_id))
  | none => (false, db)

/-- Mirrors `BookingSessionRepository.is_user_in_booking`
(src/repositories.py lines 295-306): absent row gives False; a row with
`datetime.utcnow() > expires_at` is deleted and reported False; otherwise
True.  Returns the answer and the table after the read. -/
def is_user_in_booking (now : Nat) (db : BookingDB) (user_id : Nat) :
    Bool × BookingDB :=
  match get_session_row db user_id with
  | none => (false, db)
  | some s =>
    if now > s.expires_at then (false, (delete_session db user_id).2)
    else (true, db)

/-- Mirrors `BookingSessionRepository.create_session` (src/repositories.py
lines 227-253): delete any existing session for the user first, then
insert the new row. -/
def create_session (db : BookingDB) (row : BookingSessionRow) : BookingDB :=
  (delete_session db row.user_id).2 ++ [row]

/-- Row of the `service_subscriptions` table (src/db_models.py
`ServiceSubscription`).  The autoincrement `id` and the `subscribed_at`
timestamp are omitted: no claim consults them. -/
structure SubRow where
  user_id : Nat
  service_id : Nat
  office_id : Nat
deriving DecidableEq, Repr

/-- Whether a subscription row matches a full (user, service, office) triple. -/
def matchesTriple (r : SubRow) (user_id service_id office_id : Nat) : Bool :=
  r.user_id == user_id && r.service_id == service_id && r.office_id == office_id

/-- Whether a subscription row matches a (user, service) pair. -/
def matchesPair (r : SubRow) (user_id service_id : Nat) : Bool :=
  r.user_id == user_id && r.service_id == service_id

/-- Mirrors `SubscriptionRepository.add_subscription` (src/repositories.py
lines 95-116): an existing row is looked up by the full
(user, service, office) triple; if present it is returned unchanged,
otherwise a new row is inserted. -/
def add_subscription (db : List SubRow) (user_id service_id office_id : Nat) :
    List SubRow :=
  match db.find? (fun r => matchesTriple r user_id service_id office_id) with
  | some _ => db
  | none => db ++ [⟨user_id, service_id, office_id⟩]

/-- Mirrors `SubscriptionRepository.remove_subscription` (src/repositories.py
lines 118-126): a bulk DELETE keyed by (user, service) only, returning
`rowcount > 0`. -/
def remove_subscription (db : List SubRow) (user_id service_id : Nat) :
    Bool × List SubRow :=
  (decide (db.countP (fun r => matchesPair r user_id service_id) > 0),
   db.filter (fun r => !matchesPair r user_id service_id))

/-- The in-memory `active_booking_users` dict of
src/services/queue_manager.py: user id paired with the `time.time()` at
which `add_user_to_queue` recorded them. -/
abbrev QueueState := List (Nat × Nat)

/-- The `BOOKING_TIMEOUT` constant of src/services/queue_manager.py. -/
def BOOKING_TIMEOUT : Nat := 600

/-- Mirrors `queue_manager.add_user_to_queue`: records the user with the
current time (dict assignment: replaces any existing entry). -/
def add_user_to_queue (now : Nat) (active : QueueState) (user_id : Nat) :
    QueueState :=
  (active.filter (fun e => !(e.1 == user_id))) ++ [(user_id, now)]

/-- Mirrors `queue_manager.is_user_in_queue` (src/services/queue_manager.py
lines 29-41): absent gives False; an entry older than `BOOKING_TIMEOUT`
is deleted and reported False; otherwise True.  Returns the answer and
the dict after the read. -/
def is_user_in_queue (now : Nat) (active : QueueState) (user_id : Nat) :
    Bool × QueueState :=
  match active.find? (fun e => e.1 == user_id) with
  | none => (false, active)
  | some e =>
    if now - e.2 > BOOKING_TIMEOUT then
      (false, active.eraseP (fun x => x.1 == user_id))
    else
      (true, active)

/-- The STEP 1 send loop of `notify_users_of_appointment`
(src/services/notification_service.py lines 124-144): each user is sent
the initial message unless `is_user_in_queue(user_id)` holds at that
moment.  Returns the users actually sent to (in order) and the queue
dict after the loop. -/
def notification_step (now : Nat) (acc : List Nat × QueueState) (u : Nat) :
    List Nat × QueueState :=
  let r := is_user_in_queue now acc.2 u
  (if r.1 then acc.1 else acc.1 ++ [u], r.2)

/-- The full STEP 1 send loop: fold `notification_step` over the users
of the group, starting from no messages sent and the current queue dict. -/
def notification_recipients (now : Nat) (active : QueueState)
    (user_ids : List Nat) : List Nat × QueueState :=
  user_ids.foldl (notification_step now) ([], active)

/-- Mirrors `create_booking_session` in src/commands/booking.py
(lines 43-67), the only session-creating path of the final generation:
it writes the DB-backed `BookingSession` row (via
`BookingSessionRepository.create_session`) and does not touch the
in-memory `active_booking_users` dict — no caller of the final
generation ever invokes `queue_manager.add_user_to_queue`. -/
def create_booking_session (db : BookingDB) (active : QueueState)
    (row : BookingSessionRow) : BookingDB × QueueState :=
  (create_session db row, active)

/-- Mirrors `reserve_appointment` (src/booking_api.py lines 12-74).
`httpResp` is the outcome of the POST: `none` for an HTTP/transport
error, `some j` for a 2xx response with JSON body `j`.  The function
returns the response only when `result.get('processId')` and
`result.get('authKey')` are both truthy; a non-dict body raises inside
the `try` block and is caught, yielding None. -/
def reserve_appointment (httpResp : Option Json) : Option Json :=
  match httpResp with
  | some (.obj fields) =>
    if otruthy (jlookup fields "processId") && otruthy (jlookup fields "authKey") then
      some (.obj fields)
    else
      none
  | _ => none

/-- Mirrors `update_appointment` (src/booking_api.py lines 77-165): the
2xx JSON body is returned as-is; HTTP/transport errors give None. -/
def update_appointment (httpResp : Option Json) : Option Json :=
  httpResp

/-- Mirrors `preconfirm_appointment` (src/booking_api.py lines 168-247):
the 2xx JSON body is returned as-is; HTTP/transport errors give None. -/
def preconfirm_appointment (httpResp : Option Json) : Option Json :=
  httpResp

/-- Which of the three booking steps `book_appointment_complete` actually
invoked (the reserve step is always invoked first). -/
structure BookingCallTrace where
  update_called : Bool
  preconfirm_called : Bool
deriving DecidableEq, Repr

/-- Mirrors `book_appointment_complete` (src/booking_api.py lines 250-311),
parameterised by the HTTP outcomes of the three remote calls: reserve,
then `if not reservation: return None`; update, then
`if not updated: return None` (Python truthiness); preconfirm, then
`if not preconfirmed: return None`; otherwise the preconfirm payload is
returned.  The trace records which steps were reached. -/
def book_appointment_complete (reserveResp updateResp preconfirmResp : Option Json) :
    Option Json × BookingCallTrace :=
  match reserve_appointment reserveResp with
  | none => (none, ⟨false, false⟩)
  | some _ =>
    let updated := update_appointment updateResp
    if !otruthy updated then
      (none, ⟨true, false⟩)
    else
      let preconfirmed := preconfirm_appointment preconfirmResp
      if !otruthy preconfirmed then
        (none, ⟨true, true⟩)
      else
        (preconfirmed, ⟨true, true⟩)

/-- The solution dict built by `solve_captcha_challenge`
(src/termin_tracker.py lines 61-68).  The `took` wall-clock field is
omitted: real time is outside the embedding. -/
structure CaptchaSolution where
  algorithm : String
  challenge : String
  number : Nat
  salt : String
  signature : String
deriving DecidableEq, Repr

/-- Mirrors `solve_captcha_challenge` (src/termin_tracker.py lines 32-77):
a linear scan of `n` over `range(maxnumber)` returning the first `n`
whose hash of `f"{salt}{number}"` equals `challenge` (case-sensitive
string equality), and None when the range is exhausted.  `sha256hex`
stands for the Python stdlib `hashlib.sha256(…).hexdigest()`, which is
library code external to the repository and is therefore a parameter. -/
def solve_captcha_challenge (sha256hex : String → String)
    (algorithm challenge : String) (maxnumber : Nat)
    (salt signature : String) : Option CaptchaSolution :=
  ((List.range maxnumber).find?
      (fun number => sha256hex (salt ++ toString number) == challenge)).map
    (fun number => ⟨algorithm, challenge, number, salt, signature⟩)

/-- Row of the `users` table (src/db_models.py `User`), restricted to the
columns `get_user_date_range` reads. -/
structure UserRow where
  user_id : Nat
  start_date : Option String := none
  end_date : Option String := none
deriving DecidableEq, Repr

/-- Python truthiness of an optional string column (`if not start_date:`):
falsy when NULL or the empty string. -/
def strTruthy : Option String → Bool
  | none => false
  | some s => !s.isEmpty

/-- Mirrors `get_user_date_range` (src/services/appointment_checker.py
lines 52-81): a user id with no row in the `users` table yields
`(None, None)`; otherwise each missing (falsy) bound is defaulted —
`today` for the start, `todayPlus60` for today + 60 days — and both
bounds come back as present strings. -/
def get_user_date_range (users : List UserRow) (today todayPlus60 : String)
    (user_id : Nat) : Option String × Option String :=
  match users.find? (fun r => r.user_id == user_id) with
  | none => (none, none)
  | some u =>
    let start_date := if strTruthy u.start_date then u.start_date.getD today else today
    let end_date := if strTruthy u.end_date then u.end_date.getD todayPlus60 else todayPlus60
    (some start_date, some end_date)

/-- One `date_ranges` dict entry of the grouping loop in
`check_and_notify`: key `f"{start_date}_{end_date}"` and the users
appended under it. -/
abbrev DateRangeGroups := List (String × List Nat)

/-- Appending a user under a key, mirroring
`date_ranges.setdefault-style` update at
src/services/appointment_checker.py lines 200-203: a fresh key gets a
new singleton list, an existing key has the user appended. -/
def addToGroup (groups : DateRangeGroups) (key : String) (user_id : Nat) :
    DateRangeGroups :=
  match groups.find? (fun g => g.1 == key) with
  | some _ => groups.map (fun g => if g.1 == key then (g.1, g.2 ++ [user_id]) else g)
  | none => groups ++ [(key, [user_id])]

/-- The `date_ranges` grouping loop of `check_and_notify`
(src/services/appointment_checker.py lines 195-203): for each subscribed
user, `get_user_date_range` is consulted and the user is added under the
`f"{start_date}_{end_date}"` key only when both bounds are truthy
(`if start_date and end_date:`). -/
def date_range_step (users : List UserRow) (today todayPlus60 : String)
    (groups : DateRangeGroups) (u : Nat) : DateRangeGroups :=
  match get_user_date_range users today todayPlus60 u with
  | (some s, some e) =>
    if !s.isEmpty && !e.isEmpty then addToGroup groups (s ++ "_" ++ e) u
    else groups
  | _ => groups

/-- The grouping loop folds `date_range_step` over the subscribed users,
starting from the empty `date_ranges` dict. -/
def build_date_ranges (users : List UserRow) (today todayPlus60 : String)
    (user_ids : List Nat) : DateRangeGroups :=
  user_ids.foldl (date_range_step users today todayPlus60) []

/-- Helper: erasing the first match from a list that contains at most one
match leaves a list with no match. -/
theorem countP_eraseP_of_le_one {α} (p : α → Bool) :
    ∀ l : List α, l.countP p ≤ 1 → (l.eraseP p).countP p = 0 := by
  intro l
  induction l with
  | nil => simp
  | cons a l ih =>
    intro hle
    by_cases h : p a
    · rw [List.eraseP_cons_of_pos h]
      rw [List.countP_cons, if_pos h] at hle
      omega
    · rw [List.eraseP_cons_of_neg h, List.countP_cons, if_neg h]
      rw [List.countP_cons, if_neg h] at hle
      simpa using ih hle

/-- Helper: `find?` returns the head of `filter`. -/
theorem find?_eq_head_filter {α} (p : α → Bool) :
    ∀ l : List α, l.find? p = (l.filter p).head? := by
  intro l
  induction l with
  | nil => rfl
  | cons a l ih =>
    rw [List.find?_cons, List.filter_cons]
    by_cases h : p a
    · rw [h]
      simp
    · have h' : p a = false := by simpa using h
      rw [h']
      exact ih

/-- C1: the claim says a `None` result from the Remote API Gateway's `get`
(HTTP 4xx/5xx or transport error) is counted by the poller as a failed
check and never as a successful "no availability" check.  The code does
the opposite: `check_and_notify` matches `None` against neither
`isinstance(data, dict)` nor `isinstance(data, list)`, so it falls into
the "No appointments available" branch, which increments
`successful_checks` — not `failed_checks` — and resets
`consecutive_failures` to 0.  This theorem evaluates the code at the
failing input. -/
theorem C1_none_is_counted_successful (st : CheckCounters) (cf : Nat) :
    classify none = CheckResult.noAvailability ∧
    (apply_classification st cf (classify none)).1.failed_checks = st.failed_checks ∧
    (apply_classification st cf (classify none)).1.successful_checks
      = st.successful_checks + 1 ∧
    (apply_classification st cf (classify none)).2 = 0 :=
  ⟨rfl, rfl, rfl, rfl⟩

/-- C9: after a successful refresh at time T the gate stores
`token_expires_at = T + 280`; a polling cycle whose gate runs at
`now ≥ T + 280` therefore attempts a refresh, and the target loop of that
cycle either runs with the freshly obtained credential (never the one
from time T) or — when the refresh fails — is skipped entirely. -/
theorem C9_credential_never_used_past_margin
    (T now : Nat) (old fresh : Option String) (h : now ≥ T + 280) :
    refresh_attempted now (T + 280) = true ∧
    refresh_gate now old (T + 280) fresh =
      (match fresh with
       | none => RefreshOutcome.aborted
       | some t => RefreshOutcome.proceed (some t) (now + 280)) := by
  constructor
  · simp [refresh_attempted, h]
  · simp [refresh_gate, refresh_attempted, h]

/-- Witness for C9 at T = 0, a cycle at now = 280 with a stale token and a
successful refresh. -/
theorem C9_witness :
    refresh_attempted 280 (0 + 280) = true ∧
    refresh_gate 280 (some "stale") (0 + 280) (some "fresh") =
      RefreshOutcome.proceed (some "fresh") (280 + 280) :=
  C9_credential_never_used_past_margin 0 280 (some "stale") (some "fresh")
    (by decide)

/-- C5: in `book_appointment_complete`, when `reserve_appointment` does
not yield both `processId` and `authKey` (it returns None) nothing
downstream is attempted and the result is failure; when reserve succeeds
but `update_appointment` returns null the result is failure and
`preconfirm_appointment` is never called; and a successful overall result
occurs only when all three steps returned truthy payloads. -/
theorem C5_three_step_booking_atomicity (r u p : Option Json) :
    (reserve_appointment r = none →
      book_appointment_complete r u p = (none, ⟨false, false⟩)) ∧
    (∀ res, reserve_appointment r = some res → update_appointment u = none →
      (book_appointment_complete r u p).1 = none ∧
      (book_appointment_complete r u p).2.preconfirm_called = false) ∧
    (∀ x, (book_appointment_complete r u p).1 = some x →
      (∃ res, reserve_appointment r = some res) ∧
      otruthy (update_appointment u) = true ∧
      otruthy (preconfirm_appointment p) = true) := by
  refine ⟨fun hr => ?_, fun res hr hu => ?_, fun x hx => ?_⟩
  · rw [book_appointment_complete, hr]
  · have hu' : u = none := hu
    subst hu'
    rw [book_appointment_complete, hr]
    simp [update_appointment, otruthy]
  · rw [book_appointment_complete] at hx
    cases hr : reserve_appointment r with
    | none => rw [hr] at hx; simp at hx
    | some res =>
      rw [hr] at hx
      refine ⟨⟨res, rfl⟩, ?_, ?_⟩ <;>
      · by_cases hu : otruthy (update_appointment u) <;>
          by_cases hp : otruthy (preconfirm_appointment p) <;>
          simp [hu, hp] at hx ⊢

/-- Witness for C5 at concrete responses: a reserve response missing
`authKey` (conjunct 1), a good reserve with a failed update
(conjunct 2), and a fully successful run (conjunct 3). -/
theorem C5_witness :
    (book_appointment_complete (some (.obj [("processId", .num 7)])) none none
      = (none, ⟨false, false⟩)) ∧
    ((book_appointment_complete
        (some (.obj [("processId", .num 7), ("authKey", .str "k")])) none none).1
      = none ∧
     (book_appointment_complete
        (some (.obj [("processId", .num 7), ("authKey", .str "k")])) none none).2.preconfirm_called
      = false) ∧
    ((∃ res, reserve_appointment
        (some (.obj [("processId", .num 7), ("authKey", .str "k")])) = some res) ∧
     otruthy (update_appointment (some (.obj [("ok", .bool true)]))) = true ∧
     otruthy (preconfirm_appointment (some (.obj [("ok", .bool true)]))) = true) := by
  refine ⟨?_, ?_, ?_⟩
  · exact (C5_three_step_booking_atomicity
      (some (.obj [("processId", .num 7)])) none none).1 rfl
  · exact (C5_three_step_booking_atomicity
      (some (.obj [("processId", .num 7), ("authKey", .str "k")])) none none).2.1
      (.obj [("processId", .num 7), ("authKey", .str "k")]) rfl rfl
  · exact (C5_three_step_booking_atomicity
      (some (.obj [("processId", .num 7), ("authKey", .str "k")]))
      (some (.obj [("ok", .bool true)])) (some (.obj [("ok", .bool true)]))).2.2
      (.obj [("ok", .bool true)]) rfl

/-- C6: the proof-of-work solver returns, for any hash function standing
in for sha256 hexdigest, a number below `maxnumber` whose salted hash
equals the challenge whenever one exists, and None (total function — no
hang, no exception) when no number below `maxnumber` matches. -/
theorem C6_captcha_solver_correct (sha256hex : String → String)
    (algorithm challenge salt signature : String) (maxnumber : Nat) :
    ((∃ n, n < maxnumber ∧ sha256hex (salt ++ toString n) = challenge) →
      ∃ sol, solve_captcha_challenge sha256hex algorithm challenge maxnumber
          salt signature = some sol ∧
        sol.number < maxnumber ∧
        sha256hex (salt ++ toString sol.number) = challenge) ∧
    ((∀ n, n < maxnumber → sha256hex (salt ++ toString n) ≠ challenge) →
      solve_captcha_challenge sha256hex algorithm challenge maxnumber
        salt signature = none) := by
  constructor
  · rintro ⟨n, hn, hh⟩
    cases hf : (List.range maxnumber).find?
        (fun number => sha256hex (salt ++ toString number) == challenge) with
    | none =>
      exact absurd (beq_iff_eq.mpr hh)
        (by simpa using List.find?_eq_none.mp hf n (List.mem_range.mpr hn))
    | some m =>
      refine ⟨⟨algorithm, challenge, m, salt, signature⟩, ?_, ?_, ?_⟩
      · simp [solve_captcha_challenge, hf]
      · exact List.mem_range.mp (List.mem_of_find?_eq_some hf)
      · have hm := List.find?_some hf
        simpa using hm
  · intro hnone
    have : (List.range maxnumber).find?
        (fun number => sha256hex (salt ++ toString number) == challenge) = none := by
      refine List.find?_eq_none.mpr fun x hx => ?_
      simpa using hnone x (List.mem_range.mp hx)
    simp [solve_captcha_challenge, this]

/-- Witness for C6 with the identity function in place of the hash:
challenge "x1" is solved by n = 1 below maxnumber 3, and challenge "zz"
has no solution below 3. -/
theorem C6_witness :
    (∃ sol, solve_captcha_challenge (fun s => s) "SHA-256" "x1" 3 "x" "sig"
        = some sol ∧ sol.number < 3 ∧ ("x" ++ toString sol.number) = "x1") ∧
    solve_captcha_challenge (fun s => s) "SHA-256" "zz" 3 "x" "sig" = none := by
  constructor
  · exact (C6_captcha_solver_correct (fun s => s) "SHA-256" "x1" "x" "sig" 3).1
      ⟨1, by decide, by decide⟩
  · exact (C6_captcha_solver_correct (fun s => s) "SHA-256" "zz" "x" "sig" 3).2
      (by decide)

/-- C8: the poller classifies an available-days payload exactly as the
claim states: a dict containing `errorCode` is a failed check (failed and
consecutive-failure counters increment, successful counter untouched); a
dict with a non-empty `availableDays` list, or a non-empty list response,
is availability found; an empty dict or empty list is no availability,
counted as a successful (not failed) check with the consecutive-failure
counter reset. -/
theorem C8_payload_classification :
    (∀ fields, (jlookup fields "errorCode").isSome = true →
      classify (some (.obj fields)) = .failed) ∧
    (∀ fields ds, jlookup fields "errorCode" = none →
      jlookup fields "availableDays" = some (.arr ds) → ds ≠ [] →
      classify (some (.obj fields)) = .found) ∧
    (∀ elems, elems ≠ [] → classify (some (.arr elems)) = .found) ∧
    classify (some (.obj [])) = .noAvailability ∧
    classify (some (.arr [])) = .noAvailability ∧
    (∀ st cf,
      (apply_classification st cf .failed).1.failed_checks = st.failed_checks + 1 ∧
      (apply_classification st cf .failed).1.successful_checks = st.successful_checks ∧
      (apply_classification st cf .failed).2 = cf + 1 ∧
      (apply_classification st cf .found).1.successful_checks
        = st.successful_checks + 1 ∧
      (apply_classification st cf .noAvailability).1.successful_checks
        = st.successful_checks + 1 ∧
      (apply_classification st cf .noAvailability).1.failed_checks
        = st.failed_checks ∧
      (apply_classification st cf .noAvailability).2 = 0) := by
  refine ⟨fun fields herr => ?_, fun fields ds herr hdays hne => ?_,
    fun elems hne => ?_, rfl, rfl,
    fun st cf => ⟨rfl, rfl, rfl, rfl, rfl, rfl, rfl⟩⟩
  · simp [classify, herr]
  · have hfne : fields ≠ [] := by
      intro hnil
      rw [hnil] at hdays
      simp [jlookup] at hdays
    simp [classify, herr, hdays, truthy, hfne, List.isEmpty_iff,
      List.length_pos.mpr hfne, hne]
  · simp [classify, hne, List.length_pos.mpr hne]

/-- Witness for C8 on concrete payloads: an error dict, a dict with one
available day, a non-empty list, and the empty dict. -/
theorem C8_witness :
    classify (some (.obj [("errorCode", .str "E1"), ("errorMessage", .str "rate limited")]))
      = .failed ∧
    classify (some (.obj [("availableDays", .arr [.obj [("time", .str "2025-01-15")]])]))
      = .found ∧
    classify (some (.arr [.str "2025-01-15"])) = .found ∧
    classify (some (.obj [])) = .noAvailability := by
  refine ⟨?_, ?_, ?_, C8_payload_classification.2.2.2.1⟩
  · exact C8_payload_classification.1 _ rfl
  · exact C8_payload_classification.2.1 _ [.obj [("time", .str "2025-01-15")]]
      rfl rfl (by simp)
  · exact C8_payload_classification.2.2.1 _ (by simp)

/-- Helper: after `delete_session`, a table that respected the `user_id`
primary key holds no row for the deleted user. -/
theorem countP_delete_session_zero (db : BookingDB) (u : Nat)
    (huniq : db.countP (fun r => r.user_id == u) ≤ 1) :
    (delete_session db u).2.countP (fun r => r.user_id == u) = 0 := by
  cases hf : get_session_row db u with
  | none =>
    have : db.countP (fun r => r.user_id == u) = 0 :=
      List.countP_eq_zero.mpr (List.find?_eq_none.mp hf)
    simp [delete_session, hf, this]
  | some s =>
    simpa [delete_session, hf] using
      countP_eraseP_of_le_one (fun r => r.user_id == u) db huniq

/-- Sample table row used by the C2 counterexample and witness: a booking
session that expired at instant 0. -/
def expiredSessionRow : BookingSessionRow :=
  { user_id := 1, state := "SELECTING_TIME", service_id := 100,
    office_id := 200, date := "2025-01-15", captcha_token := "tok",
    expires_at := 0 }

/-- C2 counterexample: the claim says BOTH `get_session` and
`is_user_in_booking` report an expired session as absent and delete the
stale row.  But `get_session` is a bare primary-key lookup with no expiry
check and no side effect: at time now = 1 a session with
`expires_at = 0` is expired (1 > 0) yet `get_session` still returns its
stale row instead of reporting it absent. -/
theorem C2_counterexample :
    (1 : Nat) > expiredSessionRow.expires_at ∧
    get_session_row [expiredSessionRow] 1 = some expiredSessionRow := by
  exact ⟨by decide, by decide⟩

/-- C2 amended: only `is_user_in_booking` performs the expiry check — it
reports a session whose `expires_at` is in the past as absent (False)
and deletes the stale row as a side effect, so a subsequent
`get_session` returns absent; `get_session` itself returns the stored
row regardless of expiry. -/
theorem C2_amended_expiry_check (now : Nat) (db : BookingDB) (u : Nat)
    (s : BookingSessionRow)
    (huniq : db.countP (fun r => r.user_id == u) ≤ 1)
    (hs : get_session_row db u = some s) (hexp : now > s.expires_at) :
    (is_user_in_booking now db u).1 = false ∧
    get_session_row (is_user_in_booking now db u).2 u = none := by
  have h2 : (is_user_in_booking now db u).2
      = (delete_session db u).2 := by
    simp [is_user_in_booking, hs, hexp]
  constructor
  · simp [is_user_in_booking, hs, hexp]
  · rw [h2]
    exact List.find?_eq_none.mpr
      (List.countP_eq_zero.mp (countP_delete_session_zero db u huniq))

/-- Witness for the amended C2 on a concrete expired session. -/
theorem C2_witness :
    (is_user_in_booking 1 [expiredSessionRow] 1).1 = false ∧
    get_session_row (is_user_in_booking 1 [expiredSessionRow] 1).2 1 = none :=
  C2_amended_expiry_check 1 [expiredSessionRow] 1 expiredSessionRow
    (by decide) (by decide) (by decide)

/-- Helper: creating a session leaves exactly the new row for that user
in the table, provided the table respected the primary key. -/
theorem filter_create_session (db : BookingDB) (r : BookingSessionRow) (u : Nat)
    (huniq : db.countP (fun x => x.user_id == u) ≤ 1) (hr : r.user_id = u) :
    (create_session db r).filter (fun x => x.user_id == u) = [r] := by
  rw [create_session, hr, List.filter_append]
  have h0 := countP_delete_session_zero db u huniq
  have hnil : (delete_session db u).2.filter (fun x => x.user_id == u) = [] :=
    List.filter_eq_nil_iff.mpr (List.countP_eq_zero.mp h0)
  rw [hnil]
  simp [hr]

/-- Helper: a freshly created session is the single row for its user. -/
theorem countP_create_session_one (db : BookingDB) (r : BookingSessionRow) (u : Nat)
    (huniq : db.countP (fun x => x.user_id == u) ≤ 1) (hr : r.user_id = u) :
    (create_session db r).countP (fun x => x.user_id == u) = 1 := by
  rw [List.countP_eq_length_filter, filter_create_session db r u huniq hr]
  rfl

/-- C7: `create_session` deletes any prior session for the same user
before inserting, so a create→create→get round trip leaves exactly one
session row for that user — the latest — and `get_session` returns it. -/
theorem C7_create_supersedes_prior_session (db : BookingDB) (u : Nat)
    (r1 r2 : BookingSessionRow)
    (huniq : db.countP (fun x => x.user_id == u) ≤ 1)
    (h1 : r1.user_id = u) (h2 : r2.user_id = u) :
    (create_session (create_session db r1) r2).filter (fun x => x.user_id == u)
      = [r2] ∧
    get_session_row (create_session (create_session db r1) r2) u = some r2 := by
  have hu1 : (create_session db r1).countP (fun x => x.user_id == u) ≤ 1 := by
    rw [countP_create_session_one db r1 u huniq h1]
  have hfilter := filter_create_session (create_session db r1) r2 u hu1 h2
  refine ⟨hfilter, ?_⟩
  rw [get_session_row, find?_eq_head_filter, hfilter]
  rfl

/-- Witness for C7: two sessions created in a row for user 1 starting
from an empty table leave exactly the second one. -/
theorem C7_witness :
    (create_session (create_session [] expiredSessionRow)
        { expiredSessionRow with state := "ASKING_NAME" }).filter
      (fun x => x.user_id == 1)
      = [{ expiredSessionRow with state := "ASKING_NAME" }] ∧
    get_session_row
      (create_session (create_session [] expiredSessionRow)
        { expiredSessionRow with state := "ASKING_NAME" }) 1
      = some { expiredSessionRow with state := "ASKING_NAME" } :=
  C7_create_supersedes_prior_session [] 1 expiredSessionRow
    { expiredSessionRow with state := "ASKING_NAME" }
    (by decide) (by decide) (by decide)

/-- C4 counterexample: the claim says at most one subscription row per
(user, service) pair ever exists, so a user can never hold two offices
for the same service.  But `add_subscription` deduplicates by the full
(user, service, office) triple: subscribing user 1 to service 100 at
office 200 and then at office 201 leaves two rows for the pair
(1, 100). -/
theorem C4_counterexample :
    (add_subscription (add_subscription [] 1 100 200) 1 100 201).countP
      (fun r => matchesPair r 1 100) = 2 := by
  decide

/-- C4 amended: the invariant actually preserved by every sequence of
subscription operations is at most one row per (user, service, office)
triple — a user can hold several offices for the same service — while an
unsubscribe does remove by (user, service), deleting every office of
that user's service at once. -/
theorem C4_amended_triple_invariant (db : List SubRow)
    (user_id service_id office_id : Nat)
    (hinv : ∀ u s o, db.countP (fun r => matchesTriple r u s o) ≤ 1) :
    (∀ u s o, (add_subscription db user_id service_id office_id).countP
        (fun r => matchesTriple r u s o) ≤ 1) ∧
    (∀ u s o, (remove_subscription db user_id service_id).2.countP
        (fun r => matchesTriple r u s o) ≤ 1) ∧
    (remove_subscription db user_id service_id).2.countP
        (fun r => matchesPair r user_id service_id) = 0 := by
  refine ⟨fun u s o => ?_, fun u s o => ?_, ?_⟩
  · cases hf : db.find? (fun r => matchesTriple r user_id service_id office_id) with
    | some _ => simpa [add_subscription, hf] using hinv u s o
    | none =>
      have hz : db.countP (fun r => matchesTriple r user_id service_id office_id) = 0 :=
        List.countP_eq_zero.mpr (List.find?_eq_none.mp hf)
      rw [add_subscription, hf]
      rw [List.countP_append]
      by_cases hm : matchesTriple ⟨user_id, service_id, office_id⟩ u s o
      · obtain ⟨⟨hu, hs⟩, ho⟩ : (user_id = u ∧ service_id = s) ∧ office_id = o := by
          simpa [matchesTriple] using hm
        subst hu; subst hs; subst ho
        simp [hz, hm]
      · have hm' : matchesTriple ⟨user_id, service_id, office_id⟩ u s o = false := by
          simpa using hm
        simpa [hm'] using hinv u s o
  · rw [remove_subscription]
    rw [List.countP_filter]
    refine le_trans (List.countP_mono_left fun r _ h => ?_) (hinv u s o)
    exact (Bool.and_eq_true _ _).mp h |>.1
  · refine List.countP_eq_zero.mpr fun r hr => ?_
    have hk := (List.mem_filter.mp hr).2
    simp only [Bool.not_eq_true'] at hk
    simp [hk]

/-- Witness for the amended C4: the add path from an empty table and the
remove path from a one-row table. -/
theorem C4_witness :
    (add_subscription [] 1 100 200).countP
      (fun r => matchesTriple r 1 100 200) ≤ 1 ∧
    (remove_subscription [⟨1, 100, 200⟩] 1 100).2.countP
      (fun r => matchesPair r 1 100) = 0 := by
  constructor
  · exact (C4_amended_triple_invariant [] 1 100 200
      (fun u s o => by simp)).1 1 100 200
  · exact (C4_amended_triple_invariant [⟨1, 100, 200⟩] 1 100 200
      (fun u s o => le_trans (List.countP_le_length _) (by simp))).2.2

/-- Helper: with an empty queue dict every send goes through — the fold
appends every user to the sent list and leaves the dict empty. -/
theorem recipients_foldl_empty_queue (now : Nat) :
    ∀ (uids : List Nat) (acc : List Nat),
      uids.foldl (notification_step now) (acc, []) = (acc ++ uids, []) := by
  intro uids
  induction uids with
  | nil => intro acc; simp
  | cons u uids ih =>
    intro acc
    rw [List.foldl_cons]
    have hstep : notification_step now (acc, []) u = (acc ++ [u], []) := rfl
    rw [hstep, ih]
    simp

/-- C3: the claim says every user with a live (unexpired) DB booking
session is skipped by the notification dispatch.  The dispatch loop in
`notify_users_of_appointment` instead consults
`queue_manager.is_user_in_queue`, which reads the in-memory
`active_booking_users` dict — and the final generation's booking flow
(`create_booking_session` in src/commands/booking.py) only writes the DB
row, never calling `add_user_to_queue`, so that dict stays empty.  With
the empty dict the queue check is False for everyone and no user is
skipped; conjuncts 4-5 evaluate the failing input: a user whose DB
session is live (`is_user_in_booking` = True) still receives the initial
notification.  The repository's own tests
(tests/test_business_logic.py::TestQueueManager) expect
`is_user_in_queue` to delegate to `BookingSessionRepository.is_user_in_booking`,
so the code contradicts its own tests. -/
theorem C3_mid_booking_user_still_notified
    (db : BookingDB) (active : QueueState) (row : BookingSessionRow)
    (now : Nat) (uids : List Nat) :
    (create_booking_session db active row).2 = active ∧
    (is_user_in_queue now [] row.user_id).1 = false ∧
    (notification_recipients now [] uids).1 = uids ∧
    (is_user_in_booking 100 [{ expiredSessionRow with expires_at := 900 }] 1).1
      = true ∧
    1 ∈ (notification_recipients 100 [] [1]).1 := by
  refine ⟨rfl, rfl, ?_, by decide, by decide⟩
  rw [notification_recipients, recipients_foldl_empty_queue now uids []]
  rfl

/-- Helper: adding a user other than `u` to a group structure that
nowhere contains `u` still nowhere contains `u`. -/
theorem addToGroup_not_mem (groups : DateRangeGroups) (key : String)
    (uid u : Nat) (hne : uid ≠ u) (hg : ∀ g ∈ groups, u ∉ g.2) :
    ∀ g ∈ addToGroup groups key uid, u ∉ g.2 := by
  intro g hgmem
  cases hf : groups.find? (fun x => x.1 == key) with
  | some _ =>
    rw [addToGroup, hf] at hgmem
    obtain ⟨x, hx, hgx⟩ := List.mem_map.mp hgmem
    by_cases hxk : (x.1 == key) = true
    · rw [if_pos hxk] at hgx
      rw [← hgx]
      intro hmem
      rcases List.mem_append.mp hmem with hl | hr
      · exact hg x hx hl
      · exact hne (List.mem_singleton.mp hr).symm
    · rw [if_neg hxk] at hgx
      rw [← hgx]
      exact hg x hx
  | none =>
    rw [addToGroup, hf] at hgmem
    rcases List.mem_append.mp hgmem with hl | hr
    · exact hg g hl
    · rw [List.mem_singleton.mp hr]
      intro hmem
      exact hne (List.mem_singleton.mp hmem).symm

/-- Helper: one grouping step never introduces a user who has no row in
the `users` table. -/
theorem date_range_step_not_mem (users : List UserRow)
    (today todayPlus60 : String) (u : Nat)
    (hu : users.find? (fun r => r.user_id == u) = none) :
    ∀ (groups : DateRangeGroups) (uid : Nat), (∀ g ∈ groups, u ∉ g.2) →
      ∀ g ∈ date_range_step users today todayPlus60 groups uid, u ∉ g.2 := by
  intro groups uid hg
  by_cases he : uid = u
  · subst he
    intro g hmem
    rw [date_range_step] at hmem
    rw [get_user_date_range, hu] at hmem
    exact hg g hmem
  · intro g hmem
    rw [date_range_step] at hmem
    rcases hget : get_user_date_range users today todayPlus60 uid with ⟨s?, e?⟩
    rw [hget] at hmem
    rcases s? with _ | s
    · exact hg g (by rcases e? with _ | e <;> exact hmem)
    · rcases e? with _ | e
      · exact hg g hmem
      · have hmem' : g ∈ (if (!s.isEmpty && !e.isEmpty) = true
            then addToGroup groups (s ++ "_" ++ e) uid else groups) := hmem
        by_cases hcond : (!s.isEmpty && !e.isEmpty) = true
        · rw [if_pos hcond] at hmem'
          exact addToGroup_not_mem groups (s ++ "_" ++ e) uid u he hg g hmem'
        · rw [if_neg hcond] at hmem'
          exact hg g hmem'

/-- Helper: folding the grouping step over any user list never
introduces a user who has no row in the `users` table. -/
theorem build_foldl_not_mem (users : List UserRow)
    (today todayPlus60 : String) (u : Nat)
    (hu : users.find? (fun r => r.user_id == u) = none) :
    ∀ (uids : List Nat) (acc : DateRangeGroups), (∀ g ∈ acc, u ∉ g.2) →
      ∀ g ∈ uids.foldl (date_range_step users today todayPlus60) acc, u ∉ g.2 := by
  intro uids
  induction uids with
  | nil => intro acc hacc; simpa using hacc
  | cons v uids ih =>
    intro acc hacc
    rw [List.foldl_cons]
    exact ih _ (date_range_step_not_mem users today todayPlus60 u hu acc v hacc)

/-- C10: a user id holding subscription rows but no row in the `users`
table gets `(None, None)` from `get_user_date_range` — not the default
[today, today+60d] range — and the `date_ranges` grouping loop of
`check_and_notify` therefore places that user in no date-range group: no
availability query is scoped to them and the notification call (whose
recipients are exactly a group's member list) never includes them. -/
theorem C10_user_without_row_excluded (users : List UserRow)
    (today todayPlus60 : String) (uids : List Nat) (u : Nat)
    (hu : users.find? (fun r => r.user_id == u) = none) :
    get_user_date_range users today todayPlus60 u = (none, none) ∧
    ∀ g ∈ build_date_ranges users today todayPlus60 uids, u ∉ g.2 := by
  refine ⟨by simp [get_user_date_range, hu], ?_⟩
  exact build_foldl_not_mem users today todayPlus60 u hu uids [] (by simp)

/-- Witness for C10: user 1 has subscriptions (appears in the group
loop's user list) but no `users` row; user 2 has a row with range
[a, b].  User 1 lands in no group — the only group is ("a_b", [2]). -/
theorem C10_witness :
    get_user_date_range [⟨2, some "a", some "b"⟩] "t" "p" 1 = (none, none) ∧
    1 ∉ (("a_b", [2]) : String × List Nat).2 := by
  have h := C10_user_without_row_excluded [⟨2, some "a", some "b"⟩] "t" "p"
    [1, 2] 1 (by decide)
  exact ⟨h.1, h.2 ("a_b", [2]) (by decide)⟩

end TerminMuenchen
